import Mathlib

/-!
Shallow embedding of the caching/invalidation engine of the SmartThings MCP
repository.

Client side: `src/modules/client/cache.py` (`CacheMixin`) and
`src/modules/client/base.py` (`BaseClient.call_tool`).
Server side: `src/modules/server/common.py` (module-level cache and
`make_request`).

Machine state (the `OrderedDict` cache, TTL, size bound, enabled flag and
hit/miss counters) is modelled as an explicit `CacheState` record threaded
through the operations; `time.time()` is modelled by an explicit integer
`now` argument; the remote dispatcher (`client.call_tool` on the client,
`requests.request` on the server) is an explicit function argument returning
`Except`, whose `.error` case models a raised exception.
-/

/-- Model of a Python value as passed to and returned from the tools: the
JSON-compatible constructors (`null` is Python `None`), plus `obj`, a
non-JSON-serializable Python object carrying its type name (the case in which
`json.dumps` raises `TypeError`). -/
inductive PyVal where
  | null : PyVal
  | bool : Bool → PyVal
  | num : Int → PyVal
  | str : String → PyVal
  | list : List PyVal → PyVal
  | dict : List (String × PyVal) → PyVal
  | obj : String → PyVal

/-- Discriminator for Python `None`: `pyIsNull v = false` models the Python
test `v is not None`. -/
def pyIsNull : PyVal → Bool
  | .null => true
  | _ => false

/-- Escape of a single character inside a JSON string literal, following
`json.dumps` for the common cases. -/
def jsonEscapeChar (c : Char) : String :=
  if c = '"' then "\\\""
  else if c = '\\' then "\\\\"
  else if c = '\n' then "\\n"
  else if c = '\t' then "\\t"
  else if c = '\r' then "\\r"
  else String.singleton c

/-- JSON string literal for `s`: surrounding quotes plus escaped characters. -/
def jsonQuote (s : String) : String :=
  "\"" ++ String.join (s.data.map jsonEscapeChar) ++ "\""

/-- Comma-space separated join, as produced by the default `json.dumps`
separators. -/
def joinComma : List String → String
  | [] => ""
  | [s] => s
  | s :: rest => s ++ ", " ++ joinComma rest

/-- Exactly `k` hexadecimal digits of `n`, most significant first, padded
with leading zeros. -/
def hexChars : Nat → Nat → List Char
  | 0, _ => []
  | k + 1, n => hexChars k (n / 16) ++ [Nat.digitChar (n % 16)]

/-- Deterministic numeric digest of a string (an FNV-style fold over the
code points, reduced modulo 2 to the 128). -/
def strHash (s : String) : Nat :=
  s.data.foldl (fun acc c => (acc * 1099511628211 + c.toNat) % 2 ^ 128) 14695981039346656037

/-- Model of `hashlib.md5(x.encode()).hexdigest()`: a deterministic digest
rendered as exactly 32 lowercase hexadecimal characters.  The development
depends only on determinism and on the output shape, never on the MD5
compression function itself, which is external library code. -/
def md5_hexdigest (s : String) : List Char := hexChars 32 (strHash s)

/-- Order on serialized dictionary fields: compare the keys. -/
def keyLe (a b : String × String) : Prop := a.1 ≤ b.1

instance : DecidableRel keyLe := fun a b => inferInstanceAs (Decidable (a.1 ≤ b.1))

instance : IsTotal (String × String) keyLe := ⟨fun a b => le_total a.1 b.1⟩

instance : IsTrans (String × String) keyLe := ⟨fun _ _ _ h1 h2 => le_trans h1 h2⟩

/-- Serialization of a dictionary body from its already serialized fields:
sort the (key, serialized value) pairs by key — this is `sort_keys=True` —
and join them inside braces. -/
def dumpsDictBody (pairs : List (String × String)) : String :=
  "\x7b" ++
    joinComma ((List.insertionSort keyLe pairs).map (fun kv => jsonQuote kv.1 ++ ": " ++ kv.2)) ++
    "\x7d"

mutual
/-- Total core of the model of `json.dumps(·, sort_keys=True)`: canonical
serialization with keys sorted at every nesting level.  On the
non-serializable `obj` constructor it returns a dummy value; `json_dumps_sorted`
below turns that case into the raised `TypeError`. -/
def dumpsT : PyVal → String
  | .null => "null"
  | .bool true => "true"
  | .bool false => "false"
  | .num n => toString n
  | .str s => jsonQuote s
  | .list xs => "[" ++ joinComma (dumpsTList xs) ++ "]"
  | .dict fs => dumpsDictBody (dumpsTFields fs)
  | .obj _ => ""

/-- Serializations of the elements of a list value. -/
def dumpsTList : List PyVal → List String
  | [] => []
  | x :: xs => dumpsT x :: dumpsTList xs

/-- Pairs (key, serialized value) for the fields of a dictionary value. -/
def dumpsTFields : List (String × PyVal) → List (String × String)
  | [] => []
  | (k, v) :: fs => (k, dumpsT v) :: dumpsTFields fs
end

mutual
/-- True when the value contains no non-JSON-serializable object, i.e. when
`json.dumps` succeeds on it. -/
def serializableB : PyVal → Bool
  | .null => true
  | .bool _ => true
  | .num _ => true
  | .str _ => true
  | .obj _ => false
  | .list xs => serializableLB xs
  | .dict fs => serializableFB fs

/-- Serializability of every element of a list value. -/
def serializableLB : List PyVal → Bool
  | [] => true
  | x :: xs => serializableB x && serializableLB xs

/-- Serializability of every field value of a dictionary value. -/
def serializableFB : List (String × PyVal) → Bool
  | [] => true
  | (_, v) :: fs => serializableB v && serializableFB fs
end

mutual
/-- Type name of the first non-serializable object in the value, used for
the `TypeError` message. -/
def firstObjTag : PyVal → Option String
  | .obj r => some r
  | .list xs => firstObjTagL xs
  | .dict fs => firstObjTagF fs
  | _ => none

/-- First non-serializable object inside a list value. -/
def firstObjTagL : List PyVal → Option String
  | [] => none
  | x :: xs => (firstObjTag x).or (firstObjTagL xs)

/-- First non-serializable object among dictionary fields. -/
def firstObjTagF : List (String × PyVal) → Option String
  | [] => none
  | (_, v) :: fs => (firstObjTag v).or (firstObjTagF fs)
end

/-- Model of `json.dumps(p, sort_keys=True)`: succeeds with the canonical
key-sorted serialization exactly when `p` is JSON-serializable, and otherwise
raises `TypeError("Object of type ... is not JSON serializable")`. -/
def json_dumps_sorted (p : PyVal) : Except String String :=
  if serializableB p then .ok (dumpsT p)
  else .error ("Object of type " ++ ((firstObjTag p).getD "object") ++ " is not JSON serializable")

/-- Embedding of `CacheMixin._generate_cache_key` (src/modules/client/cache.py,
lines 103-120): dump the parameters with sorted keys, hash, keep 8 hex
characters, and return `"tool_name:hash"`.  The `Except` propagates the
`TypeError` that `json.dumps` raises on non-serializable parameters. -/
def generate_cache_key (tool_name : String) (params : PyVal) : Except String String :=
  (json_dumps_sorted params).map (fun sorted_params =>
    tool_name ++ ":" ++ String.mk ((md5_hexdigest sorted_params).take 8))

/-- Embedding of the server-side `_generate_cache_key`
(src/modules/server/common.py, lines 29-38): dump the record of method, url
and parameters (with `params or ` defaulting `None` to the empty dict) with
sorted keys, hash, keep 12 hex characters, and return `"method:hash"`. -/
def server_generate_cache_key (method url : String) (params : PyVal) : Except String String :=
  let cache_data := PyVal.dict
    [("method", PyVal.str method), ("url", PyVal.str url),
     ("params", if pyIsNull params then PyVal.dict [] else params)]
  (json_dumps_sorted cache_data).map (fun cache_string =>
    method ++ ":" ++ String.mk ((md5_hexdigest cache_string).take 12))

/-- State of one cache instance.  The client (`CacheMixin.__init__`) and the
server (module-level globals in src/modules/server/common.py) hold the same
six components: the ordered store (least recently used at the head, each
entry being key, value and storing timestamp), the TTL, the maximum size, the
enabled flag and the hit/miss counters. -/
structure CacheState where
  store : List (String × PyVal × Int)
  cache_ttl : Int
  max_cache_size : Int
  cache_enabled : Bool
  cache_hits : Nat
  cache_misses : Nat

/-- Embedding of `CacheMixin.__init__` (src/modules/client/cache.py, lines
77-101): the configuration values are stored as given, without any
validation. -/
def init_cache (cache_ttl : Int) (enable_cache : Bool) (max_cache_size : Int) : CacheState :=
  { store := [], cache_ttl := cache_ttl, max_cache_size := max_cache_size,
    cache_enabled := enable_cache, cache_hits := 0, cache_misses := 0 }

/-- Embedding of `_is_cache_valid` (both sides): an entry is valid while
`now - timestamp < ttl`, with strict less-than. -/
def is_cache_valid (st : CacheState) (timestamp : Int) (now : Int) : Bool :=
  decide (now - timestamp < st.cache_ttl)

/-- Embedding of `_get_from_cache` (src/modules/client/cache.py lines 134-160,
identical in src/modules/server/common.py lines 46-66).  Returns the Python
return value (`PyVal.null` models returning `None`) together with the updated
state: a valid entry is moved to the most-recently-used tail and counts a hit;
an expired entry is deleted and counts a miss; an absent key counts a miss;
with caching disabled it returns `None` without touching the counters. -/
def get_from_cache (st : CacheState) (cache_key : String) (now : Int) : PyVal × CacheState :=
  if !st.cache_enabled then (PyVal.null, st)
  else
    match st.store.find? (fun e => e.1 == cache_key) with
    | some (_, result, timestamp) =>
      if is_cache_valid st timestamp now then
        (result,
         { st with
            store := st.store.filter (fun e => !(e.1 == cache_key)) ++ [(cache_key, result, timestamp)],
            cache_hits := st.cache_hits + 1 })
      else
        (PyVal.null,
         { st with
            store := st.store.filter (fun e => !(e.1 == cache_key)),
            cache_misses := st.cache_misses + 1 })
    | none => (PyVal.null, { st with cache_misses := st.cache_misses + 1 })

/-- Embedding of `_put_in_cache` (src/modules/client/cache.py lines 162-181,
identical in src/modules/server/common.py lines 69-82): insert or replace the
entry with the current timestamp at the most-recently-used tail, then pop
items from the least-recently-used head while the size exceeds the maximum.
Dropping from the head is the closed form of that while loop for a
non-negative maximum (`evict_loop` below is the loop itself and
`evict_loop_nonneg` proves the equivalence); with a negative maximum the
source loop instead raises `KeyError` once the dict is emptied
(`evict_loop_neg`), a path this closed form does not take, so the engines are
analysed under non-negative maxima. -/
def put_in_cache (st : CacheState) (cache_key : String) (result : PyVal) (now : Int) : CacheState :=
  if !st.cache_enabled then st
  else
    let store1 := st.store.filter (fun e => !(e.1 == cache_key)) ++ [(cache_key, result, now)]
    { st with store := store1.drop (store1.length - st.max_cache_size.toNat) }

/-- Faithful model of the eviction loop of `_put_in_cache`:
`while len(cache) > max_size: cache.popitem(last=False)`.  Each iteration
pops the least-recently-used head; `popitem` on an already emptied dict
raises `KeyError("dictionary is empty")`, which happens exactly when the
maximum is negative. -/
def evict_loop (max_size : Int) : List (String × PyVal × Int) →
    Except String (List (String × PyVal × Int))
  | [] => if (0 : Int) > max_size then .error "dictionary is empty" else .ok []
  | e :: rest =>
      if ((e :: rest).length : Int) > max_size then evict_loop max_size rest
      else .ok (e :: rest)

/-- Model of Python `str.startswith`: the characters of ` pre` lead the
characters of `s`. -/
def py_startswith (s : String) ( pre : String) : Bool :=
  pre.data.isPrefixOf s.data

/-- Model of Python `str.upper` for the ASCII method names used here. -/
def py_upper (s : String) : String := String.mk (s.data.map Char.toUpper)

/-- Embedding of `_invalidate_cache_pattern` (src/modules/client/cache.py
lines 183-200): remove every entry whose key starts with `"pat:"`. -/
def invalidate_cache_pattern (st : CacheState) (pat : String) : CacheState :=
  if !st.cache_enabled then st
  else { st with store := st.store.filter (fun e => !(py_startswith e.1 (pat ++ ":"))) }

/-- Embedding of `CacheMixin.CACHEABLE_OPERATIONS`. -/
def CACHEABLE_OPERATIONS : List String :=
  ["list_locations", "get_location", "list_devices", "get_device",
   "get_location_rooms", "get_room", "list_modes", "get_current_mode",
   "list_scenes", "get_scene", "list_rules", "get_rule",
   "get_device_components", "get_device_capabilities", "get_device_health"]

/-- Embedding of `CacheMixin.CACHE_INVALIDATING_OPERATIONS`. -/
def CACHE_INVALIDATING_OPERATIONS : List String :=
  ["execute_command", "create_location", "update_location", "delete_location",
   "create_room", "update_room", "delete_room", "set_mode", "execute_scene",
   "update_device", "delete_device", "create_rule", "update_rule",
   "delete_rule", "execute_rule"]

/-- Embedding of `CacheMixin.INVALIDATION_PATTERNS`. -/
def INVALIDATION_PATTERNS : List (String × List String) :=
  [("execute_command", ["get_device_status", "get_device"]),
   ("update_device", ["list_devices", "get_device"]),
   ("delete_device", ["list_devices"]),
   ("create_location", ["list_locations"]),
   ("update_location", ["list_locations", "get_location"]),
   ("delete_location", ["list_locations"]),
   ("create_room", ["get_location_rooms"]),
   ("update_room", ["get_location_rooms", "get_room"]),
   ("delete_room", ["get_location_rooms"]),
   ("set_mode", ["get_current_mode"]),
   ("create_rule", ["list_rules"]),
   ("update_rule", ["list_rules", "get_rule"]),
   ("delete_rule", ["list_rules", "get_rule"]),
   ("execute_rule", [])]

/-- Embedding of `_invalidate_cache_for_operation` (src/modules/client/cache.py
lines 202-212): look the write operation up in the invalidation table and
purge each listed key prefix in order; an unlisted operation purges
nothing. -/
def invalidate_cache_for_operation (st : CacheState) (tool_name : String) : CacheState :=
  match INVALIDATION_PATTERNS.find? (fun e => e.1 == tool_name) with
  | some (_, pats) => pats.foldl invalidate_cache_pattern st
  | none => st

/-- Embedding of `clear_cache` (client, lines 214-218) and `_clear_cache`
(server, lines 85-90): remove all entries and reset both counters. -/
def clear_cache (st : CacheState) : CacheState :=
  { st with store := [], cache_hits := 0, cache_misses := 0 }

/-- Embedding of `set_cache_enabled` (src/modules/client/cache.py lines
241-250): store the flag; disabling also clears the cache. -/
def set_cache_enabled (st : CacheState) (enabled : Bool) : CacheState :=
  let st1 := { st with cache_enabled := enabled }
  if !enabled then clear_cache st1 else st1

/-- Embedding of `set_cache_ttl` (src/modules/client/cache.py lines 252-259):
store the new TTL as given, without any validation. -/
def set_cache_ttl (st : CacheState) (ttl_seconds : Int) : CacheState :=
  { st with cache_ttl := ttl_seconds }

/-- Python dict `{"error": str(e)}` returned by the client when the
dispatcher raises. -/
def errorDict (e : String) : PyVal := PyVal.dict [("error", PyVal.str e)]

/-- Embedding of `BaseClient.call_tool` (src/modules/client/base.py, lines
92-146).  `dispatcher` models `client.call_tool` on the wire; the result is
the updated cache state, the number of dispatcher invocations made by this
call, and the Python outcome: `.error` models an exception escaping
`call_tool` (only the unguarded `_generate_cache_key` can raise one), while a
dispatcher failure is caught and turned into the value `{"error": str(e)}`.
The second `_generate_cache_key` call of the source at the `put` site is the
same deterministic computation, so the key is computed once and reused. -/
def call_tool (dispatcher : String → PyVal → Except String PyVal)
    (st : CacheState) (tool_name : String) (params : PyVal) (now : Int) :
    CacheState × Nat × Except String PyVal :=
  let is_cacheable := CACHEABLE_OPERATIONS.contains tool_name
  let is_write_op := CACHE_INVALIDATING_OPERATIONS.contains tool_name
  if is_cacheable then
    match generate_cache_key tool_name params with
    | .error e => (st, 0, .error e)
    | .ok cache_key =>
      let lookup := get_from_cache st cache_key now
      if !pyIsNull lookup.1 then
        (lookup.2, 0, .ok lookup.1)
      else
        match dispatcher tool_name params with
        | .ok result =>
          let st2 := put_in_cache lookup.2 cache_key result now
          let st3 := if is_write_op then invalidate_cache_for_operation st2 tool_name else st2
          (st3, 1, .ok result)
        | .error e => (lookup.2, 1, .ok (errorDict e))
  else
    match dispatcher tool_name params with
    | .ok result =>
      let st1 := if is_write_op then invalidate_cache_for_operation st tool_name else st
      (st1, 1, .ok result)
    | .error e => (st, 1, .ok (errorDict e))

/-- HTTP methods treated as writes by the server (src/modules/server/common.py
line 139). -/
def WRITE_METHODS : List String := ["POST", "PUT", "DELETE", "PATCH"]

/-- Embedding of `make_request` (src/modules/server/common.py, lines 110-216).
`remote` models `requests.request` followed by `raise_for_status` and body
parsing: `.ok (some v)` is a parsed JSON body, `.ok none` is an empty body
(returned as the empty dict and never cached), `.error msg` a
`RequestException` carrying its final error message.  The result triple is
the updated cache state, the number of remote invocations, and the outcome:
a remote failure is re-raised as
`Exception("SmartThings API request failed: " + msg)`. -/
def make_request (remote : String → String → PyVal → PyVal → Except String (Option PyVal))
    (st : CacheState) (method url : String) (params data : PyVal) (now : Int) :
    CacheState × Nat × Except String PyVal :=
  if py_upper method == "GET" then
    match server_generate_cache_key method url params with
    | .error e => (st, 0, .error e)
    | .ok cache_key =>
      let lookup := get_from_cache st cache_key now
      if !pyIsNull lookup.1 then
        (lookup.2, 0, .ok lookup.1)
      else
        match remote method url params data with
        | .ok (some result) => (put_in_cache lookup.2 cache_key result now, 1, .ok result)
        | .ok none => (lookup.2, 1, .ok (PyVal.dict []))
        | .error msg => (lookup.2, 1, .error ("SmartThings API request failed: " ++ msg))
  else
    let st1 := if WRITE_METHODS.contains (py_upper method) then clear_cache st else st
    match remote method url params data with
    | .ok (some result) => (st1, 1, .ok result)
    | .ok none => (st1, 1, .ok (PyVal.dict []))
    | .error msg => (st1, 1, .error ("SmartThings API request failed: " ++ msg))

/-! Key-encoder determinism: equality of parameter values as sets of
key-value pairs, and invariance of the generated cache key under it. -/

/-- Equality of two parameter values as sets of key-value pairs regardless of
insertion order, at every nesting level.  `dictPerm` reorders the fields of a
dictionary, `dictCongr` and `list` are pointwise congruences, and `trans`
composes them, so every recursive reordering is reachable. -/
inductive JEquiv : PyVal → PyVal → Prop where
  | null : JEquiv PyVal.null PyVal.null
  | bool (b : Bool) : JEquiv (PyVal.bool b) (PyVal.bool b)
  | num (n : Int) : JEquiv (PyVal.num n) (PyVal.num n)
  | str (s : String) : JEquiv (PyVal.str s) (PyVal.str s)
  | obj (r : String) : JEquiv (PyVal.obj r) (PyVal.obj r)
  | list {xs ys : List PyVal} (hlen : xs.length = ys.length)
      (hpt : ∀ (i : Nat) (h1 : i < xs.length) (h2 : i < ys.length),
        JEquiv (xs.get ⟨i, h1⟩) (ys.get ⟨i, h2⟩)) :
      JEquiv (PyVal.list xs) (PyVal.list ys)
  | dictPerm {f1 f2 : List (String × PyVal)} (hp : f1.Perm f2) :
      JEquiv (PyVal.dict f1) (PyVal.dict f2)
  | dictCongr {f1 f2 : List (String × PyVal)} (hlen : f1.length = f2.length)
      (hkey : ∀ (i : Nat) (h1 : i < f1.length) (h2 : i < f2.length),
        (f1.get ⟨i, h1⟩).1 = (f2.get ⟨i, h2⟩).1)
      (hval : ∀ (i : Nat) (h1 : i < f1.length) (h2 : i < f2.length),
        JEquiv (f1.get ⟨i, h1⟩).2 (f2.get ⟨i, h2⟩).2) :
      JEquiv (PyVal.dict f1) (PyVal.dict f2)
  | trans {a b c : PyVal} (h1 : JEquiv a b) (h2 : JEquiv b c) : JEquiv a c

/-- No-duplicate test for a list of dictionary keys: a Python dict cannot
hold the same key twice, so values marshalled from dicts satisfy it. -/
def nodupKeysB : List String → Bool
  | [] => true
  | k :: ks => !ks.contains k && nodupKeysB ks

mutual
/-- Well-formedness of a value as it arises from Python data: every
dictionary inside it has pairwise distinct keys. -/
def wfB : PyVal → Bool
  | .null => true
  | .bool _ => true
  | .num _ => true
  | .str _ => true
  | .obj _ => true
  | .list xs => wfLB xs
  | .dict fs => nodupKeysB (fs.map Prod.fst) && wfFB fs

/-- Well-formedness of every element of a list value. -/
def wfLB : List PyVal → Bool
  | [] => true
  | x :: xs => wfB x && wfLB xs

/-- Well-formedness of every field value of a dictionary value. -/
def wfFB : List (String × PyVal) → Bool
  | [] => true
  | (_, v) :: fs => wfB v && wfFB fs
end

theorem nodupKeysB_iff (ks : List String) : nodupKeysB ks = true ↔ ks.Nodup := by
  induction ks with
  | nil => simp [nodupKeysB]
  | cons k ks ih => simp [nodupKeysB, List.nodup_cons, ih]

theorem wfLB_eq_all (xs : List PyVal) : wfLB xs = xs.all wfB := by
  induction xs with
  | nil => rfl
  | cons x xs ih => simp [wfLB, ih]

theorem wfFB_eq_all (fs : List (String × PyVal)) : wfFB fs = fs.all (fun kv => wfB kv.2) := by
  induction fs with
  | nil => rfl
  | cons kv fs ih => simp [wfFB, ih]

theorem serializableLB_eq_all (xs : List PyVal) : serializableLB xs = xs.all serializableB := by
  induction xs with
  | nil => rfl
  | cons x xs ih => simp [serializableLB, ih]

theorem serializableFB_eq_all (fs : List (String × PyVal)) :
    serializableFB fs = fs.all (fun kv => serializableB kv.2) := by
  induction fs with
  | nil => rfl
  | cons kv fs ih => simp [serializableFB, ih]

theorem dumpsTList_eq_map (xs : List PyVal) : dumpsTList xs = xs.map dumpsT := by
  induction xs with
  | nil => rfl
  | cons x xs ih => simp [dumpsTList, ih]

theorem dumpsTFields_eq_map (fs : List (String × PyVal)) :
    dumpsTFields fs = fs.map (fun kv => (kv.1, dumpsT kv.2)) := by
  induction fs with
  | nil => rfl
  | cons kv fs ih =>
    cases kv with
    | mk k v => simp [dumpsTFields, ih]

/-- Pointwise equality of a mapped function implies equality of `List.all`. -/
theorem all_eq_of_pointwise {α : Type} {xs ys : List α} {p : α → Bool}
    (hlen : xs.length = ys.length)
    (h : ∀ (i : Nat) (h1 : i < xs.length) (h2 : i < ys.length),
      p (xs.get ⟨i, h1⟩) = p (ys.get ⟨i, h2⟩)) :
    xs.all p = ys.all p := by
  induction xs generalizing ys with
  | nil => cases ys with
    | nil => rfl
    | cons y ys => simp at hlen
  | cons x xs ih =>
    cases ys with
    | nil => simp at hlen
    | cons y ys =>
      have h0 : p x = p y := h 0 (by simp) (by simp)
      have hrest : xs.all p = ys.all p := by
        refine ih (by simpa using hlen) (fun i h1 h2 => ?_)
        exact h (i + 1) (by simpa using Nat.succ_lt_succ h1) (by simpa using Nat.succ_lt_succ h2)
      simp [List.all_cons, h0, hrest]

/-- Pointwise equality under a function implies equality of `List.map`. -/
theorem map_eq_of_pointwise {α β : Type} {xs ys : List α} {f : α → β}
    (hlen : xs.length = ys.length)
    (h : ∀ (i : Nat) (h1 : i < xs.length) (h2 : i < ys.length),
      f (xs.get ⟨i, h1⟩) = f (ys.get ⟨i, h2⟩)) :
    xs.map f = ys.map f := by
  induction xs generalizing ys with
  | nil => cases ys with
    | nil => rfl
    | cons y ys => simp at hlen
  | cons x xs ih =>
    cases ys with
    | nil => simp at hlen
    | cons y ys =>
      have h0 : f x = f y := h 0 (by simp) (by simp)
      have hrest : xs.map f = ys.map f := by
        refine ih (by simpa using hlen) (fun i h1 h2 => ?_)
        exact h (i + 1) (by simpa using Nat.succ_lt_succ h1) (by simpa using Nat.succ_lt_succ h2)
      simp [h0, hrest]

/-- A permutation leaves `List.all` unchanged. -/
theorem all_eq_of_perm {α : Type} {l1 l2 : List α} {p : α → Bool} (h : l1.Perm l2) :
    l1.all p = l2.all p := by
  rw [Bool.eq_iff_iff, List.all_eq_true, List.all_eq_true]
  exact ⟨fun H x hx => H x (h.mem_iff.mpr hx), fun H x hx => H x (h.mem_iff.mp hx)⟩

/-- Strict key order on serialized fields. -/
def keyLt (a b : String × String) : Prop := a.1 < b.1

instance : IsAntisymm (String × String) keyLt :=
  ⟨fun a b h1 h2 => absurd h2 (not_lt_of_lt h1)⟩

/-- Serialization of a dictionary body depends only on the multiset of
(key, serialized value) pairs, provided the keys are pairwise distinct:
sorting by key produces the same list on both sides. -/
theorem dumpsDictBody_eq_of_perm {l1 l2 : List (String × String)}
    (hp : l1.Perm l2) (hnd : (l1.map Prod.fst).Nodup) :
    dumpsDictBody l1 = dumpsDictBody l2 := by
  have hperm : (List.insertionSort keyLe l1).Perm (List.insertionSort keyLe l2) :=
    (List.perm_insertionSort keyLe l1).trans (hp.trans (List.perm_insertionSort keyLe l2).symm)
  have hnd1 : ((List.insertionSort keyLe l1).map Prod.fst).Nodup :=
    (((List.perm_insertionSort keyLe l1).map Prod.fst).nodup_iff).mpr hnd
  have hnd2 : ((List.insertionSort keyLe l2).map Prod.fst).Nodup :=
    (((List.perm_insertionSort keyLe l2).map Prod.fst).nodup_iff).mpr
      ((hp.map Prod.fst).nodup_iff.mp hnd)
  have hlt : ∀ (l : List (String × String)), ((l.map Prod.fst).Nodup) →
      List.Sorted keyLe l → List.Sorted keyLt l := by
    intro l hnd hs
    have hne : List.Pairwise (fun a b : String × String => a.1 ≠ b.1) l :=
      List.pairwise_map.mp hnd
    exact (hs.and hne).imp (fun hab => lt_of_le_of_ne hab.1 hab.2)
  have hs1 : List.Sorted keyLt (List.insertionSort keyLe l1) :=
    hlt _ hnd1 (List.sorted_insertionSort keyLe l1)
  have hs2 : List.Sorted keyLt (List.insertionSort keyLe l2) :=
    hlt _ hnd2 (List.sorted_insertionSort keyLe l2)
  have : List.insertionSort keyLe l1 = List.insertionSort keyLe l2 :=
    List.eq_of_perm_of_sorted hperm hs1 hs2
  simp [dumpsDictBody, this]

/-- Main invariance result: equivalent values agree on nullity,
well-formedness and serializability, and well-formed equivalent values have
the same canonical serialization. -/
theorem jequiv_spec {p1 p2 : PyVal} (h : JEquiv p1 p2) :
    pyIsNull p1 = pyIsNull p2 ∧ wfB p1 = wfB p2 ∧ serializableB p1 = serializableB p2 ∧
      (wfB p1 = true → dumpsT p1 = dumpsT p2) := by
  induction h with
  | null => exact ⟨rfl, rfl, rfl, fun _ => rfl⟩
  | bool b => exact ⟨rfl, rfl, rfl, fun _ => rfl⟩
  | num n => exact ⟨rfl, rfl, rfl, fun _ => rfl⟩
  | str s => exact ⟨rfl, rfl, rfl, fun _ => rfl⟩
  | obj r => exact ⟨rfl, rfl, rfl, fun _ => rfl⟩
  | list hlen hpt ih =>
    refine ⟨rfl, ?_, ?_, ?_⟩
    · simp only [wfB, wfLB_eq_all]
      exact all_eq_of_pointwise hlen (fun i h1 h2 => (ih i h1 h2).2.1)
    · simp only [serializableB, serializableLB_eq_all]
      exact all_eq_of_pointwise hlen (fun i h1 h2 => (ih i h1 h2).2.2.1)
    · intro hwf
      simp only [wfB, wfLB_eq_all, List.all_eq_true] at hwf
      simp only [dumpsT, dumpsTList_eq_map]
      have : ∀ (i : Nat) (h1 : _) (h2 : _), dumpsT (List.get _ ⟨i, h1⟩) = dumpsT (List.get _ ⟨i, h2⟩) :=
        fun i h1 h2 => (ih i h1 h2).2.2.2 (hwf _ (List.get_mem _ i h1))
      rw [map_eq_of_pointwise hlen this]
  | dictPerm hp =>
    refine ⟨rfl, ?_, ?_, ?_⟩
    · simp only [wfB, wfFB_eq_all]
      rw [Bool.eq_iff_iff, Bool.and_eq_true, Bool.and_eq_true,
        nodupKeysB_iff, nodupKeysB_iff, (hp.map Prod.fst).nodup_iff, all_eq_of_perm hp]
    · simp only [serializableB, serializableFB_eq_all]
      rw [all_eq_of_perm hp]
    · intro hwf
      simp only [wfB, Bool.and_eq_true, nodupKeysB_iff] at hwf
      simp only [dumpsT, dumpsTFields_eq_map]
      refine dumpsDictBody_eq_of_perm (hp.map _) ?_
      simp only [List.map_map]
      simpa [Function.comp] using hwf.1
  | dictCongr hlen hkey hval ih =>
    have hfst : List.map Prod.fst _ = List.map Prod.fst _ :=
      map_eq_of_pointwise hlen hkey
    refine ⟨rfl, ?_, ?_, ?_⟩
    · simp only [wfB, wfFB_eq_all]
      rw [hfst, all_eq_of_pointwise hlen (fun i h1 h2 => (ih i h1 h2).2.1)]
    · simp only [serializableB, serializableFB_eq_all]
      rw [all_eq_of_pointwise hlen (fun i h1 h2 => (ih i h1 h2).2.2.1)]
    · intro hwf
      simp only [wfB, Bool.and_eq_true, wfFB_eq_all, List.all_eq_true] at hwf
      simp only [dumpsT, dumpsTFields_eq_map]
      have : ∀ (i : Nat) (h1 : _) (h2 : _),
          (fun kv : String × PyVal => (kv.1, dumpsT kv.2)) (List.get _ ⟨i, h1⟩)
            = (fun kv : String × PyVal => (kv.1, dumpsT kv.2)) (List.get _ ⟨i, h2⟩) :=
        fun i h1 h2 => Prod.ext (hkey i h1 h2)
          ((ih i h1 h2).2.2.2 (hwf.2 _ (List.get_mem _ i h1)))
      rw [map_eq_of_pointwise hlen this]
  | trans hab hbc ihab ihbc =>
    refine ⟨ihab.1.trans ihbc.1, ihab.2.1.trans ihbc.2.1,
      ihab.2.2.1.trans ihbc.2.2.1, fun hwf => ?_⟩
    exact (ihab.2.2.2 hwf).trans (ihbc.2.2.2 (ihab.2.1.symm.trans hwf))

/-- Test for a lowercase hexadecimal digit. -/
def isHexDigitB (c : Char) : Bool := "0123456789abcdef".data.contains c

theorem hexChars_length (k : Nat) : ∀ n, (hexChars k n).length = k := by
  induction k with
  | zero => intro n; rfl
  | succ k ih => intro n; simp [hexChars, ih]

theorem digitChar_hex {m : Nat} (h : m < 16) : isHexDigitB (Nat.digitChar m) = true := by
  have H : ∀ m : Nat, m < 16 → isHexDigitB (Nat.digitChar m) = true := by decide
  exact H m h

theorem hexChars_hex (k : Nat) : ∀ n, ∀ c ∈ hexChars k n, isHexDigitB c = true := by
  induction k with
  | zero => intro n c hc; simp [hexChars] at hc
  | succ k ih =>
    intro n c hc
    rw [hexChars] at hc
    rcases List.mem_append.mp hc with h | h
    · exact ih _ c h
    · rcases List.mem_singleton.mp h with rfl
      exact digitChar_hex (Nat.mod_lt _ (by norm_num))

theorem md5_hexdigest_take_shape (s : String) (k : Nat) (hk : k ≤ 32) :
    ((md5_hexdigest s).take k).length = k ∧
      ∀ c ∈ (md5_hexdigest s).take k, isHexDigitB c = true := by
  constructor
  · simp [List.length_take, md5_hexdigest, hexChars_length]
    omega
  · intro c hc
    exact hexChars_hex 32 _ c (List.take_subset _ _ hc)

/-- C7: key encoding is deterministic and order-insensitive — for every
operation name and all parameter mappings that are equal as sets of key-value
pairs regardless of insertion order at every nesting level, the client and
server key encoders produce the same key; and every produced key has the form
operation-name, colon, hash, where the hash is a fixed-length lowercase hex
digest of 8 characters (client) or 12 characters (server), both within the 8
to 12 character range, over the canonicalized (recursively key-sorted)
serialized parameters. -/
theorem cache_key_deterministic_and_shaped
    (op method url : String) (p1 p2 : PyVal)
    (h12 : JEquiv p1 p2) (hwf : wfB p1 = true) (hser : serializableB p1 = true) :
    generate_cache_key op p1 = generate_cache_key op p2 ∧
    server_generate_cache_key method url p1 = server_generate_cache_key method url p2 ∧
    (∃ hx : List Char, generate_cache_key op p1 = .ok (op ++ ":" ++ String.mk hx) ∧
      hx.length = 8 ∧ ∀ c ∈ hx, isHexDigitB c = true) ∧
    (∃ hx : List Char, server_generate_cache_key method url p1
        = .ok (method ++ ":" ++ String.mk hx) ∧
      hx.length = 12 ∧ ∀ c ∈ hx, isHexDigitB c = true) := by
  obtain ⟨hnull, hwfeq, hsereq, hdump⟩ := jequiv_spec h12
  have hser2 : serializableB p2 = true := hsereq ▸ hser
  have hdeq : dumpsT p1 = dumpsT p2 := hdump hwf
  have hwrap : ∀ p : PyVal, JEquiv
      (PyVal.dict [("method", PyVal.str method), ("url", PyVal.str url),
        ("params", if pyIsNull p1 then PyVal.dict [] else p1)])
      (PyVal.dict [("method", PyVal.str method), ("url", PyVal.str url),
        ("params", if pyIsNull p2 then PyVal.dict [] else p2)]) := by
    intro _
    refine JEquiv.dictCongr rfl (fun i h1 h2 => ?_) (fun i h1 h2 => ?_)
    · have h3 : i < 3 := by simpa using h1
      interval_cases i <;> rfl
    · have h3 : i < 3 := by simpa using h1
      interval_cases i
      · exact JEquiv.str method
      · exact JEquiv.str url
      · show JEquiv (if pyIsNull p1 then PyVal.dict [] else p1)
          (if pyIsNull p2 then PyVal.dict [] else p2)
        rw [← hnull]
        cases hn : pyIsNull p1 with
        | true => exact JEquiv.dictPerm (List.Perm.refl [])
        | false => exact h12
  have hwfw : ∀ (p : PyVal), wfB p = true →
      wfB (PyVal.dict [("method", PyVal.str method), ("url", PyVal.str url),
        ("params", if pyIsNull p then PyVal.dict [] else p)]) = true := by
    intro p hp
    cases hn : pyIsNull p <;>
      simp [wfB, wfFB, nodupKeysB, hn, hp]
  have hserw : ∀ (p : PyVal), serializableB p = true →
      serializableB (PyVal.dict [("method", PyVal.str method), ("url", PyVal.str url),
        ("params", if pyIsNull p then PyVal.dict [] else p)]) = true := by
    intro p hp
    cases hn : pyIsNull p <;>
      simp [serializableB, serializableFB, hn, hp]
  have hw1 := hwfw p1 hwf
  have hs1 := hserw p1 hser
  have hs2 := hserw p2 hser2
  have hdw : dumpsT (PyVal.dict [("method", PyVal.str method), ("url", PyVal.str url),
        ("params", if pyIsNull p1 then PyVal.dict [] else p1)])
      = dumpsT (PyVal.dict [("method", PyVal.str method), ("url", PyVal.str url),
        ("params", if pyIsNull p2 then PyVal.dict [] else p2)]) :=
    (jequiv_spec (hwrap p1)).2.2.2 hw1
  refine ⟨?_, ?_, ?_, ?_⟩
  · simp [generate_cache_key, json_dumps_sorted, hser, hser2, hdeq]
  · simp [server_generate_cache_key, json_dumps_sorted, hs1, hs2, hdw]
  · refine ⟨(md5_hexdigest (dumpsT p1)).take 8, ?_,
      (md5_hexdigest_take_shape (dumpsT p1) 8 (by norm_num)).1,
      (md5_hexdigest_take_shape (dumpsT p1) 8 (by norm_num)).2⟩
    simp [generate_cache_key, json_dumps_sorted, hser, Except.map]
  · refine ⟨(md5_hexdigest (dumpsT (PyVal.dict [("method", PyVal.str method),
      ("url", PyVal.str url),
      ("params", if pyIsNull p1 then PyVal.dict [] else p1)]))).take 12, ?_,
      (md5_hexdigest_take_shape _ 12 (by norm_num)).1,
      (md5_hexdigest_take_shape _ 12 (by norm_num)).2⟩
    simp [server_generate_cache_key, json_dumps_sorted, hs1, Except.map]

/-! Witness material and store-level properties. -/

def c7pA : PyVal := PyVal.dict [("a", PyVal.num 1), ("b", PyVal.num 2)]

def c7pB : PyVal := PyVal.dict [("b", PyVal.num 2), ("a", PyVal.num 1)]

/-- Witness for the key-determinism theorem at two concrete mappings that
differ only in field insertion order. -/
theorem cache_key_deterministic_and_shaped_witness :
    (JEquiv c7pA c7pB ∧ wfB c7pA = true ∧ serializableB c7pA = true) ∧
    generate_cache_key "list_devices" c7pA = generate_cache_key "list_devices" c7pB ∧
    server_generate_cache_key "GET" "https://api.smartthings.com/v1/devices" c7pA
      = server_generate_cache_key "GET" "https://api.smartthings.com/v1/devices" c7pB :=
  have h1 : JEquiv c7pA c7pB :=
    JEquiv.dictPerm (List.Perm.swap ("b", PyVal.num 2) ("a", PyVal.num 1) [])
  have h2 : wfB c7pA = true := by simp [c7pA, wfB, wfFB, nodupKeysB]
  have h3 : serializableB c7pA = true := by simp [c7pA, serializableB, serializableFB]
  have H := cache_key_deterministic_and_shaped "list_devices" "GET"
    "https://api.smartthings.com/v1/devices" c7pA c7pB h1 h2 h3
  ⟨⟨h1, h2, h3⟩, H.1, H.2.1⟩

/-- C4: a stored entry is a hit exactly when `now - storedAt < ttl`, with
strict less-than: a get on a present, unexpired entry returns its value,
moves it to the most-recently-used tail and counts a hit; a get on a present
but expired entry deletes that entry and counts a miss; a get on an absent
key counts a miss; and with a TTL of zero every get after the storing call is
a miss even with no elapsed time. -/
theorem get_from_cache_ttl_boundary
    (st : CacheState) (k : String) (v : PyVal) (ts now : Int)
    (hen : st.cache_enabled = true) :
    (st.store.find? (fun e => e.1 == k) = some (k, v, ts) → now - ts < st.cache_ttl →
      get_from_cache st k now =
        (v, { st with
                store := st.store.filter (fun e => !(e.1 == k)) ++ [(k, v, ts)],
                cache_hits := st.cache_hits + 1 })) ∧
    (st.store.find? (fun e => e.1 == k) = some (k, v, ts) → ¬(now - ts < st.cache_ttl) →
      get_from_cache st k now =
        (PyVal.null, { st with
                store := st.store.filter (fun e => !(e.1 == k)),
                cache_misses := st.cache_misses + 1 })) ∧
    (st.store.find? (fun e => e.1 == k) = none →
      get_from_cache st k now = (PyVal.null, { st with cache_misses := st.cache_misses + 1 })) ∧
    (st.cache_ttl = 0 →
      (get_from_cache (put_in_cache st k v now) k now).1 = PyVal.null ∧
      (get_from_cache (put_in_cache st k v now) k now).2.cache_misses
        = (put_in_cache st k v now).cache_misses + 1) := by
  refine ⟨?_, ?_, ?_, ?_⟩
  · intro hf hv
    simp [get_from_cache, hen, hf, is_cache_valid, hv]
  · intro hf hv
    simp [get_from_cache, hen, hf, is_cache_valid, hv]
  · intro hf
    simp [get_from_cache, hen, hf]
  · intro h0
    have hen1 : (put_in_cache st k v now).cache_enabled = true := by
      simp [put_in_cache, hen]
    have httl : (put_in_cache st k v now).cache_ttl = st.cache_ttl := by
      simp [put_in_cache, hen]
    cases hf : (put_in_cache st k v now).store.find? (fun e => e.1 == k) with
    | none => simp [get_from_cache, hen1, hf]
    | some e =>
      obtain ⟨k1, v1, ts1⟩ := e
      have hpe : (k1 == k) = true := by
        have := List.find?_some hf
        simpa using this
      have hmem : (k1, v1, ts1) ∈ (put_in_cache st k v now).store :=
        List.mem_of_find?_eq_some hf
      have hmem1 : (k1, v1, ts1) ∈
          st.store.filter (fun e => !(e.1 == k)) ++ [(k, v, now)] := by
        have hsub : (put_in_cache st k v now).store ⊆
            st.store.filter (fun e => !(e.1 == k)) ++ [(k, v, now)] := by
          simp only [put_in_cache, hen]
          simp [List.drop_subset]
        exact hsub hmem
      have hts : ts1 = now := by
        rcases List.mem_append.mp hmem1 with h | h
        · have := (List.mem_filter.mp h).2
          rw [hpe] at this
          simp at this
        · rcases List.mem_singleton.mp h with heq
          exact congrArg (fun x => x.2.2) heq
      have hinvalid : is_cache_valid (put_in_cache st k v now) ts1 now = false := by
        simp [is_cache_valid, httl, h0, hts]
      simp [get_from_cache, hen1, hf, hinvalid]

def c4St : CacheState :=
  { store := [("list_devices:aa", PyVal.str "x", 10)], cache_ttl := 300,
    max_cache_size := 1000, cache_enabled := true, cache_hits := 0, cache_misses := 0 }

def c4St0 : CacheState :=
  { store := [], cache_ttl := 0, max_cache_size := 1000, cache_enabled := true,
    cache_hits := 0, cache_misses := 0 }

/-- Witness for the TTL boundary theorem: a hit at 90 elapsed seconds with
TTL 300, a miss at 390, a miss on an absent key, and an immediate miss after
storing under TTL 0. -/
theorem get_from_cache_ttl_boundary_witness :
    c4St.cache_enabled = true ∧
    (get_from_cache c4St "list_devices:aa" 100).1 = PyVal.str "x" ∧
    (get_from_cache c4St "list_devices:aa" 100).2.cache_hits = 1 ∧
    (get_from_cache c4St "list_devices:aa" 400).1 = PyVal.null ∧
    (get_from_cache c4St "list_devices:aa" 400).2.store = [] ∧
    (get_from_cache c4St "absent" 100).2.cache_misses = 1 ∧
    (get_from_cache (put_in_cache c4St0 "k" (PyVal.str "y") 5) "k" 5).1 = PyVal.null := by
  have H1 := get_from_cache_ttl_boundary c4St "list_devices:aa" (PyVal.str "x") 10 100 rfl
  have H2 := get_from_cache_ttl_boundary c4St "list_devices:aa" (PyVal.str "x") 10 400 rfl
  have H3 := get_from_cache_ttl_boundary c4St "absent" (PyVal.str "x") 10 100 rfl
  have H4 := get_from_cache_ttl_boundary c4St0 "k" (PyVal.str "y") 5 5 rfl
  have e1 := H1.1 (by rfl) (by norm_num [c4St])
  have e2 := H2.2.1 (by rfl) (by norm_num [c4St])
  have e3 := H3.2.2.1 (by rfl)
  have e4 := (H4.2.2.2 (by rfl)).1
  rw [e1, e2, e3]
  exact ⟨rfl, rfl, rfl, rfl, rfl, rfl, e4⟩

/-- C5: the entry store keeps the bounded-LRU invariant after every
operation — after a put completes the size never exceeds the configured
maximum; insertion places the entry at the most-recently-used tail (it is the
last entry whenever the maximum admits at least one entry); eviction removes
entries only from the least-recently-used head, so the resulting store is a
suffix of the pre-eviction store; with a maximum of zero a put retains no
entry at all; and a successful access moves the accessed entry to the tail. -/
theorem put_in_cache_lru_invariant
    (st : CacheState) (k : String) (v : PyVal) (ts now : Int)
    (hen : st.cache_enabled = true) :
    ((put_in_cache st k v now).store.length ≤ st.max_cache_size.toNat) ∧
    (1 ≤ st.max_cache_size.toNat →
      (put_in_cache st k v now).store.getLast? = some (k, v, now)) ∧
    ((put_in_cache st k v now).store <:+
      (st.store.filter (fun e => !(e.1 == k)) ++ [(k, v, now)])) ∧
    (st.max_cache_size = 0 → (put_in_cache st k v now).store = []) ∧
    (st.store.find? (fun e => e.1 == k) = some (k, v, ts) → now - ts < st.cache_ttl →
      (get_from_cache st k now).2.store.getLast? = some (k, v, ts)) := by
  have hput : (put_in_cache st k v now).store =
      (st.store.filter (fun e => !(e.1 == k)) ++ [(k, v, now)]).drop
        ((st.store.filter (fun e => !(e.1 == k)) ++ [(k, v, now)]).length
          - st.max_cache_size.toNat) := by
    simp [put_in_cache, hen]
  refine ⟨?_, ?_, ?_, ?_, ?_⟩
  · rw [hput, List.length_drop]
    omega
  · intro hmax
    rw [hput]
    have hle : (st.store.filter (fun e => !(e.1 == k)) ++ [(k, v, now)]).length
        - st.max_cache_size.toNat ≤ (st.store.filter (fun e => !(e.1 == k))).length := by
      simp only [List.length_append, List.length_singleton]
      omega
    rw [List.drop_append_of_le_length hle]
    exact List.getLast?_concat _
  · rw [hput]
    exact List.drop_suffix _ _
  · intro h0
    rw [hput, h0]
    simp [List.drop_length]
  · intro hf hv
    simp [get_from_cache, hen, hf, is_cache_valid, hv, List.getLast?_concat]

def c5St : CacheState :=
  { store := [("a:1", PyVal.num 1, 0), ("b:2", PyVal.num 2, 0), ("c:3", PyVal.num 3, 0)],
    cache_ttl := 300, max_cache_size := 3, cache_enabled := true,
    cache_hits := 0, cache_misses := 0 }

def c5St0 : CacheState :=
  { store := [], cache_ttl := 300, max_cache_size := 0, cache_enabled := true,
    cache_hits := 0, cache_misses := 0 }

/-- Witness for the LRU invariant: at maximum size 3, a fourth insertion
evicts exactly the least-recently-used head entry and sits at the tail; at
maximum size 0 nothing is retained; an access moves the accessed entry to the
tail. -/
theorem put_in_cache_lru_invariant_witness :
    c5St.cache_enabled = true ∧
    (put_in_cache c5St "d:4" (PyVal.num 4) 1).store.length ≤ c5St.max_cache_size.toNat ∧
    (put_in_cache c5St "d:4" (PyVal.num 4) 1).store.getLast? = some ("d:4", PyVal.num 4, 1) ∧
    (put_in_cache c5St "d:4" (PyVal.num 4) 1).store
      = [("b:2", PyVal.num 2, 0), ("c:3", PyVal.num 3, 0), ("d:4", PyVal.num 4, 1)] ∧
    (put_in_cache c5St0 "d:4" (PyVal.num 4) 1).store = [] ∧
    (get_from_cache c5St "a:1" 100).2.store.getLast? = some ("a:1", PyVal.num 1, 0) := by
  have H := put_in_cache_lru_invariant c5St "d:4" (PyVal.num 4) 0 1 rfl
  have H0 := put_in_cache_lru_invariant c5St0 "d:4" (PyVal.num 4) 0 1 rfl
  have Ha := put_in_cache_lru_invariant c5St "a:1" (PyVal.num 1) 0 100 rfl
  refine ⟨rfl, H.1, H.2.1 (by decide), ?_, H0.2.2.2.1 (by decide),
    Ha.2.2.2.2 (by rfl) (by decide)⟩
  rfl

/-- Purging a list of key prefixes one after the other filters the store once
with the disjunction of the prefix tests and changes nothing else. -/
theorem foldl_invalidate_store (pats : List String) (st : CacheState)
    (hen : st.cache_enabled = true) :
    pats.foldl invalidate_cache_pattern st =
      { st with store :=
          st.store.filter (fun e => !pats.any (fun p => py_startswith e.1 (p ++ ":"))) } := by
  induction pats generalizing st with
  | nil =>
    simp only [List.foldl_nil, List.any_nil, Bool.not_false, List.filter_true]
  | cons p pats ih =>
    have h1 : invalidate_cache_pattern st p =
        { st with store := st.store.filter (fun e => !py_startswith e.1 (p ++ ":")) } := by
      simp [invalidate_cache_pattern, hen]
    have hen1 : (invalidate_cache_pattern st p).cache_enabled = true := by
      rw [h1]; exact hen
    rw [List.foldl_cons, ih _ hen1, h1]
    simp only [List.filter_filter]
    congr 1
    apply List.filter_congr
    intro e _
    cases hb : py_startswith e.1 (p ++ ":") <;>
      cases hc : pats.any (fun q => py_startswith e.1 (q ++ ":")) <;>
      simp [List.any_cons, hb, hc]

/-- C6: under precise (client-side) invalidation, a write operation removes
exactly the cached entries whose key starts with `p` and a colon for some
operation-name `p` listed for that write in the invalidation table, leaving
every other entry and all other state unchanged; a write with no table entry,
or with an empty target list, purges nothing. -/
theorem invalidate_cache_precise_frame
    (st : CacheState) (tool_name : String) (pats : List String)
    (hen : st.cache_enabled = true) :
    (INVALIDATION_PATTERNS.find? (fun e => e.1 == tool_name) = some (tool_name, pats) →
      invalidate_cache_for_operation st tool_name =
        { st with store :=
            st.store.filter (fun e => !pats.any (fun p => py_startswith e.1 (p ++ ":"))) }) ∧
    (INVALIDATION_PATTERNS.find? (fun e => e.1 == tool_name) = none →
      invalidate_cache_for_operation st tool_name = st) ∧
    (INVALIDATION_PATTERNS.find? (fun e => e.1 == tool_name) = some (tool_name, []) →
      invalidate_cache_for_operation st tool_name = st) := by
  refine ⟨?_, ?_, ?_⟩
  · intro hf
    rw [invalidate_cache_for_operation, hf]
    exact foldl_invalidate_store pats st hen
  · intro hf
    rw [invalidate_cache_for_operation, hf]
  · intro hf
    rw [invalidate_cache_for_operation, hf]
    simp [List.foldl_nil]

def c6St : CacheState :=
  { store := [("list_devices:aa", PyVal.str "1", 0), ("get_room:bb", PyVal.str "2", 0)],
    cache_ttl := 300, max_cache_size := 1000, cache_enabled := true,
    cache_hits := 0, cache_misses := 0 }

/-- Witness for precise invalidation: `update_device` purges the
`list_devices` entry but keeps the unrelated `get_room` entry; an unlisted
operation and the empty-listed `execute_rule` purge nothing. -/
theorem invalidate_cache_precise_frame_witness :
    c6St.cache_enabled = true ∧
    invalidate_cache_for_operation c6St "update_device" =
      { c6St with store := [("get_room:bb", PyVal.str "2", 0)] } ∧
    invalidate_cache_for_operation c6St "unknown_op" = c6St ∧
    invalidate_cache_for_operation c6St "execute_rule" = c6St := by
  have H := invalidate_cache_precise_frame c6St "update_device"
    ["list_devices", "get_device"] rfl
  have H2 := invalidate_cache_precise_frame c6St "unknown_op" [] rfl
  have H3 := invalidate_cache_precise_frame c6St "execute_rule" [] rfl
  refine ⟨rfl, ?_, H2.2.1 (by rfl), H3.2.2 (by rfl)⟩
  rw [H.1 (by rfl)]
  rfl

/-! Engine-level behaviour of `call_tool` and `make_request`. -/

theorem cacheable_not_write (op : String)
    (h : CACHEABLE_OPERATIONS.contains op = true) :
    CACHE_INVALIDATING_OPERATIONS.contains op = false := by
  simp [CACHEABLE_OPERATIONS] at h
  rcases h with rfl | rfl | rfl | rfl | rfl | rfl | rfl | rfl | rfl | rfl | rfl | rfl | rfl
    | rfl | rfl <;> rfl

theorem get_from_cache_absent (st : CacheState) (key : String) (now : Int)
    (hen : st.cache_enabled = true)
    (hf : st.store.find? (fun e => e.1 == key) = none) :
    get_from_cache st key now = (PyVal.null, { st with cache_misses := st.cache_misses + 1 }) := by
  simp [get_from_cache, hen, hf]

theorem get_from_cache_hit (st : CacheState) (key : String) (v : PyVal) (ts now : Int)
    (hen : st.cache_enabled = true)
    (hf : st.store.find? (fun e => e.1 == key) = some (key, v, ts))
    (hv : now - ts < st.cache_ttl) :
    get_from_cache st key now =
      (v, { st with
              store := st.store.filter (fun e => !(e.1 == key)) ++ [(key, v, ts)],
              cache_hits := st.cache_hits + 1 }) := by
  simp [get_from_cache, hen, hf, is_cache_valid, hv]

theorem put_in_cache_fields (st : CacheState) (key : String) (v : PyVal) (now : Int) :
    (put_in_cache st key v now).cache_enabled = st.cache_enabled ∧
    (put_in_cache st key v now).cache_ttl = st.cache_ttl ∧
    (put_in_cache st key v now).max_cache_size = st.max_cache_size ∧
    (put_in_cache st key v now).cache_hits = st.cache_hits ∧
    (put_in_cache st key v now).cache_misses = st.cache_misses := by
  cases hen : st.cache_enabled <;> simp [put_in_cache, hen]

theorem find?_put_self (st : CacheState) (key : String) (v : PyVal) (now : Int)
    (hen : st.cache_enabled = true) (hmax : 1 ≤ st.max_cache_size.toNat) :
    (put_in_cache st key v now).store.find? (fun e => e.1 == key) = some (key, v, now) := by
  have hle : (st.store.filter (fun e => !(e.1 == key)) ++ [(key, v, now)]).length
      - st.max_cache_size.toNat ≤ (st.store.filter (fun e => !(e.1 == key))).length := by
    simp only [List.length_append, List.length_singleton]
    omega
  have hput : (put_in_cache st key v now).store =
      (st.store.filter (fun e => !(e.1 == key))).drop
        ((st.store.filter (fun e => !(e.1 == key))).length + 1
          - st.max_cache_size.toNat) ++ [(key, v, now)] := by
    simp only [put_in_cache, hen]
    simp only [Bool.not_true, Bool.false_eq_true, if_false, List.length_append,
      List.length_singleton]
    exact List.drop_append_of_le_length (by omega)
  have h1 : ∀ n, ((st.store.filter (fun e => !(e.1 == key))).drop n).find?
      (fun e => e.1 == key) = none := by
    intro n
    rw [List.find?_eq_none]
    intro x hx
    have hxf := List.mem_filter.mp (List.drop_subset _ _ hx)
    simpa using hxf.2
  rw [hput, List.find?_append, h1]
  simp

/-- Behaviour of a cacheable `call_tool` on a cold key with a successful
dispatch: one dispatcher call, and the result is stored. -/
theorem call_tool_cold_call
    (D : String → PyVal → Except String PyVal) (st : CacheState)
    (op : String) (params : PyVal) (now : Int) (key : String) (v : PyVal)
    (hc : CACHEABLE_OPERATIONS.contains op = true)
    (hk : generate_cache_key op params = .ok key)
    (hen : st.cache_enabled = true)
    (hcold : st.store.find? (fun e => e.1 == key) = none)
    (hd : D op params = .ok v) :
    call_tool D st op params now =
      (put_in_cache { st with cache_misses := st.cache_misses + 1 } key v now, 1, .ok v) := by
  have hget := get_from_cache_absent st key now hen hcold
  have hc2 : op ∈ CACHEABLE_OPERATIONS := by simpa using hc
  have hcw : op ∉ CACHE_INVALIDATING_OPERATIONS := by
    simpa using cacheable_not_write op hc
  simp [call_tool, hc2, hk, hget, hd, hcw, pyIsNull]

/-- Behaviour of a cacheable `call_tool` on a warm key holding a value other
than None: no dispatcher call, the stored value is returned. -/
theorem call_tool_warm_call
    (D : String → PyVal → Except String PyVal) (st : CacheState)
    (op : String) (params : PyVal) (now : Int) (key : String) (v : PyVal) (ts : Int)
    (hc : CACHEABLE_OPERATIONS.contains op = true)
    (hk : generate_cache_key op params = .ok key)
    (hen : st.cache_enabled = true)
    (hfind : st.store.find? (fun e => e.1 == key) = some (key, v, ts))
    (hvalid : now - ts < st.cache_ttl)
    (hv : pyIsNull v = false) :
    call_tool D st op params now =
      ({ st with
          store := st.store.filter (fun e => !(e.1 == key)) ++ [(key, v, ts)],
          cache_hits := st.cache_hits + 1 }, 0, .ok v) := by
  have hget := get_from_cache_hit st key v ts now hen hfind hvalid
  have hc2 : op ∈ CACHEABLE_OPERATIONS := by simpa using hc
  simp [call_tool, hc2, hk, hget, hv]

/-- C1 (amended): for every cacheable operation, with caching enabled (a
positive TTL and room for at least one entry, as in the default
configuration), no intervening writes and a cold key, two consecutive calls
with the same operation name and parameter set invoke the dispatcher exactly
once — the first call dispatches (dispatch count 1) and stores the result,
the second returns the stored value without any dispatcher call (dispatch
count 0) and its return value equals the first call's — provided the
dispatcher's result for this call is not None. -/
theorem call_tool_second_call_cached
    (D : String → PyVal → Except String PyVal) (st : CacheState)
    (op : String) (params : PyVal) (now : Int) (key : String) (v : PyVal)
    (hc : CACHEABLE_OPERATIONS.contains op = true)
    (hk : generate_cache_key op params = .ok key)
    (hen : st.cache_enabled = true)
    (httl : 0 < st.cache_ttl)
    (hmax : 1 ≤ st.max_cache_size.toNat)
    (hcold : st.store.find? (fun e => e.1 == key) = none)
    (hd : D op params = .ok v)
    (hv : pyIsNull v = false) :
    ∃ st1 st2 : CacheState,
      call_tool D st op params now = (st1, 1, .ok v) ∧
      call_tool D st1 op params now = (st2, 0, .ok v) := by
  have hst0 : ({ st with cache_misses := st.cache_misses + 1 } : CacheState).cache_enabled
      = true := hen
  have h1 := call_tool_cold_call D st op params now key v hc hk hen hcold hd
  have hfields := put_in_cache_fields { st with cache_misses := st.cache_misses + 1 } key v now
  have hen1 : (put_in_cache { st with cache_misses := st.cache_misses + 1 } key v now).cache_enabled
      = true := by rw [hfields.1]; exact hen
  have hfind1 := find?_put_self { st with cache_misses := st.cache_misses + 1 } key v now hst0
    (by simpa using hmax)
  have hvalid1 : now - now
      < (put_in_cache { st with cache_misses := st.cache_misses + 1 } key v now).cache_ttl := by
    rw [hfields.2.1]
    simpa using httl
  have h2 := call_tool_warm_call D
    (put_in_cache { st with cache_misses := st.cache_misses + 1 } key v now)
    op params now key v now hc hk hen1 hfind1 hvalid1 hv
  exact ⟨_, _, h1, h2⟩

def cacheSt0 : CacheState := init_cache 300 true 1000

theorem c1_key_eval : generate_cache_key "list_devices" (PyVal.dict []) =
    .ok "list_devices:9ce7393c" := by
  simp only [generate_cache_key, json_dumps_sorted, serializableB, serializableFB,
    dumpsT, dumpsTFields]
  rfl

def c1D : String → PyVal → Except String PyVal := fun _ _ => .ok PyVal.null

/-- C1 as stated is false on the code: at the concrete input where the
dispatcher returns None for the cacheable operation `list_devices`, the None
is stored but a second identical call cannot distinguish it from a miss and
invokes the dispatcher again — each of the two consecutive calls has dispatch
count 1, so the dispatcher runs twice, not exactly once. -/
theorem call_tool_none_result_dispatches_twice :
    (call_tool c1D cacheSt0 "list_devices" (PyVal.dict []) 0).2.1 = 1 ∧
    (call_tool c1D (call_tool c1D cacheSt0 "list_devices" (PyVal.dict []) 0).1
      "list_devices" (PyVal.dict []) 0).2.1 = 1 := by
  constructor
  · simp only [call_tool, c1_key_eval]
    rfl
  · simp only [call_tool, c1_key_eval]
    rfl

def c1Dv : String → PyVal → Except String PyVal := fun _ _ => .ok (PyVal.str "devices")

/-- Witness for the amended C1 at the concrete operation `list_devices` with
empty parameters and a non-None dispatcher result. -/
theorem call_tool_second_call_cached_witness :
    ∃ st1 st2 : CacheState,
      call_tool c1Dv cacheSt0 "list_devices" (PyVal.dict []) 0
        = (st1, 1, .ok (PyVal.str "devices")) ∧
      call_tool c1Dv st1 "list_devices" (PyVal.dict []) 0
        = (st2, 0, .ok (PyVal.str "devices")) :=
  call_tool_second_call_cached c1Dv cacheSt0 "list_devices" (PyVal.dict []) 0
    "list_devices:9ce7393c" (PyVal.str "devices")
    rfl c1_key_eval rfl (by decide) (by decide) rfl rfl rfl

/-- Behaviour of a cacheable `call_tool` on a warm key that holds a stored
None: the lookup counts a hit and moves the entry to the tail, but the caller
cannot distinguish the returned None from a miss, dispatches anyway and
re-stores the result. -/
theorem call_tool_warm_null_call
    (D : String → PyVal → Except String PyVal) (st : CacheState)
    (op : String) (params : PyVal) (now : Int) (key : String) (ts : Int)
    (hc : CACHEABLE_OPERATIONS.contains op = true)
    (hk : generate_cache_key op params = .ok key)
    (hen : st.cache_enabled = true)
    (hfind : st.store.find? (fun e => e.1 == key) = some (key, PyVal.null, ts))
    (hvalid : now - ts < st.cache_ttl)
    (hd : D op params = .ok PyVal.null) :
    call_tool D st op params now =
      (put_in_cache
        { st with
            store := st.store.filter (fun e => !(e.1 == key)) ++ [(key, PyVal.null, ts)],
            cache_hits := st.cache_hits + 1 } key PyVal.null now,
       1, .ok PyVal.null) := by
  have hget := get_from_cache_hit st key PyVal.null ts now hen hfind hvalid
  have hc2 : op ∈ CACHEABLE_OPERATIONS := by simpa using hc
  have hcw : op ∉ CACHE_INVALIDATING_OPERATIONS := by
    simpa using cacheable_not_write op hc
  simp [call_tool, hc2, hk, hget, hd, hcw, pyIsNull]

/-- C10: if a cacheable operation's dispatcher result is the value None and
it is stored, a later identical call while the entry is valid increments the
hit counter inside the cache lookup, yet the caller treats the returned None
as a miss and invokes the dispatcher again (dispatch count 1 on the second
call as well) and re-stores the result: a stored None is indistinguishable
from absence at the get interface, hit-suppresses-dispatch fails for None
results, and the hit statistics over-count. -/
theorem none_result_hit_miscount
    (D : String → PyVal → Except String PyVal) (st : CacheState)
    (op : String) (params : PyVal) (now : Int) (key : String)
    (hc : CACHEABLE_OPERATIONS.contains op = true)
    (hk : generate_cache_key op params = .ok key)
    (hen : st.cache_enabled = true)
    (httl : 0 < st.cache_ttl)
    (hmax : 1 ≤ st.max_cache_size.toNat)
    (hcold : st.store.find? (fun e => e.1 == key) = none)
    (hd : D op params = .ok PyVal.null) :
    ∃ st1 st2 : CacheState,
      call_tool D st op params now = (st1, 1, .ok PyVal.null) ∧
      call_tool D st1 op params now = (st2, 1, .ok PyVal.null) ∧
      st2.cache_hits = st1.cache_hits + 1 ∧
      st2.store.find? (fun e => e.1 == key) = some (key, PyVal.null, now) := by
  have h1 := call_tool_cold_call D st op params now key PyVal.null hc hk hen hcold hd
  have hfields := put_in_cache_fields { st with cache_misses := st.cache_misses + 1 }
    key PyVal.null now
  have hen1 : (put_in_cache { st with cache_misses := st.cache_misses + 1 }
      key PyVal.null now).cache_enabled = true := by rw [hfields.1]; exact hen
  have hfind1 := find?_put_self { st with cache_misses := st.cache_misses + 1 }
    key PyVal.null now hen (by simpa using hmax)
  have hvalid1 : now - now < (put_in_cache { st with cache_misses := st.cache_misses + 1 }
      key PyVal.null now).cache_ttl := by
    rw [hfields.2.1]
    simpa using httl
  have h2 := call_tool_warm_null_call D
    (put_in_cache { st with cache_misses := st.cache_misses + 1 } key PyVal.null now)
    op params now key now hc hk hen1 hfind1 hvalid1 hd
  refine ⟨_, _, h1, h2, ?_, ?_⟩
  · have hfields2 := put_in_cache_fields
      { put_in_cache { st with cache_misses := st.cache_misses + 1 } key PyVal.null now with
          store := (put_in_cache { st with cache_misses := st.cache_misses + 1 }
              key PyVal.null now).store.filter (fun e => !(e.1 == key))
            ++ [(key, PyVal.null, now)],
          cache_hits := (put_in_cache { st with cache_misses := st.cache_misses + 1 }
              key PyVal.null now).cache_hits + 1 }
      key PyVal.null now
    exact hfields2.2.2.2.1
  · exact find?_put_self _ key PyVal.null now hen1 (by
      have := hfields.2.2.1
      simp only [this]
      simpa using hmax)

/-- Witness for the None-result miscount at the concrete operation
`list_devices` with empty parameters and a dispatcher that returns None. -/
theorem none_result_hit_miscount_witness :
    ∃ st1 st2 : CacheState,
      call_tool c1D cacheSt0 "list_devices" (PyVal.dict []) 0 = (st1, 1, .ok PyVal.null) ∧
      call_tool c1D st1 "list_devices" (PyVal.dict []) 0 = (st2, 1, .ok PyVal.null) ∧
      st2.cache_hits = st1.cache_hits + 1 ∧
      st2.store.find? (fun e => e.1 == "list_devices:9ce7393c")
        = some ("list_devices:9ce7393c", PyVal.null, 0) :=
  none_result_hit_miscount c1D cacheSt0 "list_devices" (PyVal.dict []) 0
    "list_devices:9ce7393c" rfl c1_key_eval rfl (by decide) (by decide) rfl rfl

def c2D : String → PyVal → Except String PyVal := fun _ _ => .error "boom"

/-- C2 as stated is false on the code: at the concrete input where the
dispatcher fails with message `boom` on the operation `execute_command`, the
client engine does not re-raise — it converts the failure into the ordinary
return value `{"error": "boom"}` (an `.ok` result), silently swallowing it. -/
theorem call_tool_error_returned_as_value :
    call_tool c2D cacheSt0 "execute_command" (PyVal.dict []) 0
      = (cacheSt0, 1, .ok (errorDict "boom")) := rfl

/-- C2 (amended): the engine never lets a dispatcher failure reach the
caller unchanged.  On the client, every dispatcher exception is caught and
returned as the ordinary value `{"error": message}`, with the cache state
exactly as the preceding lookup left it: untouched for non-cacheable
operations, and for a cacheable operation whatever the lookup produced when
it failed to suppress dispatch — unchanged with the cache disabled, the miss
counter bumped on an absent or expired key, the hit counter bumped when a
stored None was found.  On the server, every dispatcher failure — on writes
after the unconditional pre-dispatch clear, and on GET misses after the
lookup — is re-raised with the message wrapped as
`SmartThings API request failed: <message>`. -/
theorem dispatcher_failure_propagation
    (D : String → PyVal → Except String PyVal)
    (R : String → String → PyVal → PyVal → Except String (Option PyVal))
    (st : CacheState) (op method url : String) (params data : PyVal)
    (now : Int) (msg : String) (key : String) :
    (CACHEABLE_OPERATIONS.contains op = false → D op params = .error msg →
      call_tool D st op params now = (st, 1, .ok (errorDict msg))) ∧
    (CACHEABLE_OPERATIONS.contains op = true → generate_cache_key op params = .ok key →
      pyIsNull (get_from_cache st key now).1 = true → D op params = .error msg →
      call_tool D st op params now
        = ((get_from_cache st key now).2, 1, .ok (errorDict msg))) ∧
    ((py_upper method == "GET") = false → R method url params data = .error msg →
      make_request R st method url params data now
        = ((if WRITE_METHODS.contains (py_upper method) then clear_cache st else st), 1,
           .error ("SmartThings API request failed: " ++ msg))) ∧
    ((py_upper method == "GET") = true →
      server_generate_cache_key method url params = .ok key →
      pyIsNull (get_from_cache st key now).1 = true → R method url params data = .error msg →
      make_request R st method url params data now
        = ((get_from_cache st key now).2, 1,
           .error ("SmartThings API request failed: " ++ msg))) := by
  refine ⟨?_, ?_, ?_, ?_⟩
  · intro hnc hd
    have hnc2 : op ∉ CACHEABLE_OPERATIONS := by simpa using hnc
    simp [call_tool, hnc2, hd]
  · intro hc hk hnull hd
    have hc2 : op ∈ CACHEABLE_OPERATIONS := by simpa using hc
    simp [call_tool, hc2, hk, hnull, hd]
  · intro hm hr
    simp [make_request, hm, hr]
  · intro hm hk hnull hr
    simp [make_request, hm, hk, hnull, hr]

set_option maxRecDepth 16384 in
theorem c2_server_key_eval :
    server_generate_cache_key "GET" "https://api.smartthings.com/v1/rules" (PyVal.dict [])
      = .ok "GET:eb66d63b3dd8" := by
  have h1 : ¬ (("url" : String) ≤ "params") := by
    simp
    decide
  have h2 : ("method" : String) ≤ "params" := by
    simp
    decide
  simp only [server_generate_cache_key, pyIsNull, Bool.false_eq_true, if_false,
    json_dumps_sorted, serializableB, serializableFB, dumpsT, dumpsTFields,
    dumpsDictBody, List.insertionSort, List.orderedInsert, keyLe, h1, h2, if_true,
    if_neg, ite_false, ite_true]
  rfl

/-- Witness for the amended C2: a failing dispatcher on `execute_command`
(client write, state untouched), on `list_devices` against an empty cache
(client cacheable miss, miss counter bumped), a failing POST (server write,
cleared before the wrapped re-raise), and a failing GET read (server miss,
wrapped re-raise). -/
theorem dispatcher_failure_propagation_witness :
    call_tool c2D cacheSt0 "execute_command" (PyVal.dict []) 0
      = (cacheSt0, 1, .ok (errorDict "boom")) ∧
    call_tool c2D cacheSt0 "list_devices" (PyVal.dict []) 0
      = ((get_from_cache cacheSt0 "list_devices:9ce7393c" 0).2, 1, .ok (errorDict "boom")) ∧
    make_request (fun _ _ _ _ => .error "boom") cacheSt0 "POST"
        "https://api.smartthings.com/v1/rules" (PyVal.dict []) (PyVal.dict []) 0
      = (clear_cache cacheSt0, 1, .error ("SmartThings API request failed: " ++ "boom")) ∧
    make_request (fun _ _ _ _ => .error "boom") cacheSt0 "GET"
        "https://api.smartthings.com/v1/rules" (PyVal.dict []) (PyVal.dict []) 0
      = ((get_from_cache cacheSt0 "GET:eb66d63b3dd8" 0).2, 1,
         .error ("SmartThings API request failed: " ++ "boom")) :=
  ⟨(dispatcher_failure_propagation c2D (fun _ _ _ _ => .error "boom") cacheSt0
      "execute_command" "POST" "https://api.smartthings.com/v1/rules"
      (PyVal.dict []) (PyVal.dict []) 0 "boom" "").1 rfl rfl,
   (dispatcher_failure_propagation c2D (fun _ _ _ _ => .error "boom") cacheSt0
      "list_devices" "POST" "https://api.smartthings.com/v1/rules"
      (PyVal.dict []) (PyVal.dict []) 0 "boom" "list_devices:9ce7393c").2.1
      rfl c1_key_eval rfl rfl,
   (dispatcher_failure_propagation c2D (fun _ _ _ _ => .error "boom") cacheSt0
      "execute_command" "POST" "https://api.smartthings.com/v1/rules"
      (PyVal.dict []) (PyVal.dict []) 0 "boom" "").2.2.1 rfl rfl,
   (dispatcher_failure_propagation c2D (fun _ _ _ _ => .error "boom") cacheSt0
      "execute_command" "GET" "https://api.smartthings.com/v1/rules"
      (PyVal.dict []) (PyVal.dict []) 0 "boom" "GET:eb66d63b3dd8").2.2.2
      rfl c2_server_key_eval rfl rfl⟩

def c3St : CacheState :=
  { store := [("list_devices:aa", PyVal.str "cached", 0)], cache_ttl := 300,
    max_cache_size := 1000, cache_enabled := true, cache_hits := 0, cache_misses := 0 }

def c3D : String → PyVal → Except String PyVal := fun _ _ => .error "boom"

/-- C3 as stated is false on the code: in precise (client) mode a failed
write runs no invalidation at all — `update_device` lists `list_devices` as a
purge target, the dispatcher fails, and the matching cached entry survives
with the state completely unchanged (size 1, not 0). -/
theorem failed_write_skips_precise_invalidation :
    call_tool c3D c3St "update_device" (PyVal.dict []) 5
      = (c3St, 1, .ok (errorDict "boom")) ∧
    (call_tool c3D c3St "update_device" (PyVal.dict []) 5).1.store.length = 1 := ⟨rfl, rfl⟩

/-- C3 (amended): only the coarse (server) mode invalidates before dispatch,
so after a failed write the store still has size 0; in precise (client) mode
a failed dispatcher call skips the invalidation step entirely and the cache
state is unchanged. -/
theorem failed_write_invalidation_by_mode
    (R : String → String → PyVal → PyVal → Except String (Option PyVal))
    (D : String → PyVal → Except String PyVal)
    (st : CacheState) (method url op : String) (params data : PyVal)
    (now : Int) (msg : String)
    (hw : WRITE_METHODS.contains (py_upper method) = true)
    (hg : (py_upper method == "GET") = false)
    (hr : R method url params data = .error msg)
    (hnc : CACHEABLE_OPERATIONS.contains op = false)
    (hd : D op params = .error msg) :
    make_request R st method url params data now
      = (clear_cache st, 1, .error ("SmartThings API request failed: " ++ msg)) ∧
    (clear_cache st).store.length = 0 ∧
    call_tool D st op params now = (st, 1, .ok (errorDict msg)) := by
  have hw2 : py_upper method ∈ WRITE_METHODS := by simpa using hw
  have hnc2 : op ∉ CACHEABLE_OPERATIONS := by simpa using hnc
  refine ⟨?_, rfl, ?_⟩
  · simp [make_request, hg, hw2, hr]
  · simp [call_tool, hnc2, hd]

/-- Witness for the amended C3: a failing DELETE on the server clears the
whole store before the failure propagates; a failing `update_device` on the
client leaves the populated store untouched. -/
theorem failed_write_invalidation_by_mode_witness :
    make_request (fun _ _ _ _ => .error "boom") c3St "DELETE"
        "https://api.smartthings.com/v1/rules/123" PyVal.null (PyVal.dict []) 7
      = (clear_cache c3St, 1, .error ("SmartThings API request failed: " ++ "boom")) ∧
    (clear_cache c3St).store.length = 0 ∧
    call_tool c3D c3St "update_device" (PyVal.dict []) 7 = (c3St, 1, .ok (errorDict "boom")) :=
  failed_write_invalidation_by_mode (fun _ _ _ _ => .error "boom") c3D c3St
    "DELETE" "https://api.smartthings.com/v1/rules/123" "update_device"
    PyVal.null (PyVal.dict []) 7 "boom" rfl rfl rfl rfl rfl

def c8D : String → PyVal → Except String PyVal := fun _ _ => .ok (PyVal.str "served")

def c8Params : PyVal := PyVal.dict [("x", PyVal.obj "Foo")]

theorem c8_key_eval : generate_cache_key "list_devices" c8Params
    = .error "Object of type Foo is not JSON serializable" := by
  simp only [c8Params, generate_cache_key, json_dumps_sorted, serializableB,
    serializableFB, firstObjTag, firstObjTagF]
  rfl

/-- C8 as stated is false on the code: at the concrete input where the
parameters of the cacheable operation `list_devices` cannot be serialized,
the unguarded key generation raises and the whole call fails with the
TypeError — the engine does not fall back to direct dispatch (the dispatcher
is never invoked: dispatch count 0), and the caller gets no result. -/
theorem encoding_failure_fails_call :
    call_tool c8D cacheSt0 "list_devices" c8Params 0
      = (cacheSt0, 0, .error "Object of type Foo is not JSON serializable") := by
  simp only [call_tool, c8_key_eval]
  rfl

/-- C8 (amended): a key-encoding failure on a cacheable operation is not
caught — the call itself fails with the serialization error, the dispatcher
is never invoked (the outcome is independent of the dispatcher, with dispatch
count 0) and the cache state is unchanged; only non-cacheable operations skip
key generation, and for them the call always reaches the dispatcher exactly
once. -/
theorem encoding_failure_behavior
    (D : String → PyVal → Except String PyVal) (st : CacheState)
    (op : String) (params : PyVal) (now : Int) (e : String) :
    (CACHEABLE_OPERATIONS.contains op = true → generate_cache_key op params = .error e →
      call_tool D st op params now = (st, 0, .error e)) ∧
    (CACHEABLE_OPERATIONS.contains op = false →
      (call_tool D st op params now).2.1 = 1) := by
  constructor
  · intro hc hk
    have hc2 : op ∈ CACHEABLE_OPERATIONS := by simpa using hc
    simp [call_tool, hc2, hk]
  · intro hnc
    have hnc2 : op ∉ CACHEABLE_OPERATIONS := by simpa using hnc
    cases hd : D op params with
    | ok v => simp [call_tool, hnc2, hd]
    | error msg => simp [call_tool, hnc2, hd]

/-- Witness for the amended C8: non-serializable parameters fail a cacheable
call without dispatching, and a non-cacheable call with the same parameters
dispatches exactly once. -/
theorem encoding_failure_behavior_witness :
    call_tool c8D cacheSt0 "list_devices" c8Params 0
      = (cacheSt0, 0, .error "Object of type Foo is not JSON serializable") ∧
    (call_tool c8D cacheSt0 "execute_command" c8Params 0).2.1 = 1 :=
  ⟨(encoding_failure_behavior c8D cacheSt0 "list_devices" c8Params 0
      "Object of type Foo is not JSON serializable").1 rfl c8_key_eval,
   (encoding_failure_behavior c8D cacheSt0 "execute_command" c8Params 0
      "Object of type Foo is not JSON serializable").2 rfl⟩

/-- C9 as stated is false on the code: there is no configuration validation
anywhere — no ConfigError exists, and at the concrete inputs a negative TTL
and a negative maximum size are silently accepted and stored as given, both
at construction and through the runtime TTL setter. -/
theorem negative_ttl_accepted :
    init_cache (-5) true (-3)
      = { store := [], cache_ttl := -5, max_cache_size := -3, cache_enabled := true,
          cache_hits := 0, cache_misses := 0 } ∧
    (set_cache_ttl (init_cache 300 true 1000) (-5)).cache_ttl = -5 := ⟨rfl, rfl⟩

theorem evict_loop_nonneg (max_size : Int) (h : 0 ≤ max_size) :
    ∀ l : List (String × PyVal × Int),
      evict_loop max_size l = .ok (l.drop (l.length - max_size.toNat)) := by
  intro l
  induction l with
  | nil =>
    rw [evict_loop]
    simp
    omega
  | cons e rest ih =>
    rw [evict_loop]
    by_cases hlen : ((e :: rest).length : Int) > max_size
    · have h1 : max_size.toNat ≤ rest.length := by
        simp only [List.length_cons] at hlen
        omega
      rw [if_pos hlen, ih]
      congr 1
      simp only [List.length_cons]
      rw [Nat.succ_sub h1]
      rfl
    · have h1 : (e :: rest).length - max_size.toNat = 0 := by
        simp only [List.length_cons] at hlen ⊢
        omega
      rw [if_neg hlen, h1]
      rfl

theorem evict_loop_neg (max_size : Int) (h : max_size < 0) :
    ∀ l : List (String × PyVal × Int),
      evict_loop max_size l = .error "dictionary is empty" := by
  intro l
  induction l with
  | nil =>
    rw [evict_loop]
    rw [if_pos (by omega)]
  | cons e rest ih =>
    rw [evict_loop]
    rw [if_pos (by simp only [List.length_cons]; omega), ih]

/-- C9 (amended): configuring the cache never fails — `ttlSeconds < 0` and
`maxSize < 0` are silently accepted both at construction and via the runtime
setter, the stored configuration being exactly what was given.  A negative
TTL then makes every get on a previously stored entry a miss; a negative
maximum size is only ever accepted as configuration — at the next put the
source's eviction loop empties the store and then raises
`KeyError("dictionary is empty")`, so the put never completes (for a
non-negative maximum the loop completes and agrees with `put_in_cache`). -/
theorem config_negative_values_accepted
    (ttl maxSize : Int) (e : Bool) (st : CacheState) (t : Int)
    (k : String) (v : PyVal) (ts now : Int) :
    init_cache ttl e maxSize
      = { store := [], cache_ttl := ttl, max_cache_size := maxSize, cache_enabled := e,
          cache_hits := 0, cache_misses := 0 } ∧
    (set_cache_ttl st t).cache_ttl = t ∧
    (st.store.find? (fun x => x.1 == k) = some (k, v, ts) → ts ≤ now →
      st.cache_ttl < 0 → st.cache_enabled = true →
      (get_from_cache st k now).1 = PyVal.null) ∧
    (st.max_cache_size < 0 →
      evict_loop st.max_cache_size
          (st.store.filter (fun x => !(x.1 == k)) ++ [(k, v, now)])
        = .error "dictionary is empty") ∧
    (0 ≤ st.max_cache_size → st.cache_enabled = true →
      evict_loop st.max_cache_size
          (st.store.filter (fun x => !(x.1 == k)) ++ [(k, v, now)])
        = .ok (put_in_cache st k v now).store) := by
  refine ⟨rfl, rfl, ?_, ?_, ?_⟩
  · intro hf hts httl hen
    have hinv : is_cache_valid st ts now = false := by
      simp only [is_cache_valid, decide_eq_false_iff_not, not_lt]
      omega
    simp [get_from_cache, hen, hf, hinv]
  · intro hmax
    exact evict_loop_neg st.max_cache_size hmax _
  · intro hmax hen
    rw [evict_loop_nonneg st.max_cache_size hmax]
    simp [put_in_cache, hen]

def c9St : CacheState :=
  { store := [("list_devices:aa", PyVal.str "x", 0)], cache_ttl := -5,
    max_cache_size := -3, cache_enabled := true, cache_hits := 0, cache_misses := 0 }

/-- Witness for the amended C9: negative configuration values are stored as
given, a stored entry is never a hit under a negative TTL, the eviction loop
of a put raises KeyError under the negative maximum, and under the default
non-negative maximum it completes and agrees with the closed form. -/
theorem config_negative_values_accepted_witness :
    init_cache (-5) true (-3)
      = { store := [], cache_ttl := -5, max_cache_size := -3, cache_enabled := true,
          cache_hits := 0, cache_misses := 0 } ∧
    (set_cache_ttl c9St (-7)).cache_ttl = -7 ∧
    (get_from_cache c9St "list_devices:aa" 9).1 = PyVal.null ∧
    evict_loop c9St.max_cache_size
        (c9St.store.filter (fun x => !(x.1 == "k")) ++ [("k", PyVal.str "y", 9)])
      = .error "dictionary is empty" ∧
    evict_loop cacheSt0.max_cache_size
        (cacheSt0.store.filter (fun x => !(x.1 == "k")) ++ [("k", PyVal.str "y", 9)])
      = .ok (put_in_cache cacheSt0 "k" (PyVal.str "y") 9).store := by
  have H := config_negative_values_accepted (-5) (-3) true c9St (-7)
    "list_devices:aa" (PyVal.str "x") 0 9
  have H2 := config_negative_values_accepted (-5) (-3) true c9St (-7) "k"
    (PyVal.str "y") 0 9
  have H3 := config_negative_values_accepted (-5) (-3) true cacheSt0 (-7) "k"
    (PyVal.str "y") 0 9
  exact ⟨H.1, H.2.1, H.2.2.1 rfl (by decide) (by decide) rfl,
    H2.2.2.2.1 (by decide), H3.2.2.2.2 (by decide) rfl⟩
